import Mathlib

/-!
Verification of the authorization/scoping engine, order lifecycle and pricing
computation of the food-delivery backend.

The embedding is shallow and executable:

* Python IEEE-754 binary64 values (`float`) are modelled exactly by the
  structure `Dy`: a canonical mantissa/exponent pair denoting `m * 2^e`.
  Arithmetic on floats is exact rational arithmetic followed by rounding to
  53 significant bits (round to nearest, ties to even), which is the IEEE
  semantics of CPython's `+` and `*` on floats in the normal range (the
  values arising here are far from overflow and underflow, so neither
  infinities nor subnormals are modelled).  CPython's `round(x, 2)` rounds
  the exact binary value of `x` to two decimal digits with ties to even and
  converts the result back to binary64; `pyRound2` reproduces this.
* Database rows become Lean structures; `Optional` columns become `Option`;
  Python sets of ids become lists; SQLAlchemy queries become predicates.
* HTTP endpoint handlers become functions returning `Except HErr α`, where
  `HErr` carries the HTTPException status code and detail string; handlers
  raise before mutating, so an error result means the store is unchanged.
-/

set_option maxRecDepth 40000

/-- A dyadic rational `m * 2^e`.  Values produced by `toFq` are canonical
binary64 encodings: either `⟨0, 0⟩` or `2^52 ≤ |m| < 2^53`. -/
structure Dy where
  m : ℤ
  e : ℤ
deriving DecidableEq, Repr

/-- Number of binary digits of `n` (`0` for `0`), fuel-driven so that the
kernel can evaluate it; 512 bits of fuel covers every value in this file. -/
def bitlenAux : ℕ → ℕ → ℕ
| 0, _ => 0
| fuel+1, n => if n = 0 then 0 else bitlenAux fuel (n / 2) + 1

def bitlen (n : ℕ) : ℕ := bitlenAux 512 n

/-- Round `a / b` (`b > 0`) to the nearest integer, ties to even. -/
def rheDiv (a b : ℤ) : ℤ :=
  let q := Int.fdiv a b
  let r := a - q * b
  if 2 * r < b then q
  else if b < 2 * r then q + 1
  else if q % 2 = 0 then q else q + 1

/-- Floor of the base-2 logarithm of the positive rational `n / d`. -/
def flog2 (n : ℤ) (d : ℕ) : ℤ :=
  let a := n.toNat
  let la := bitlen a - 1
  let lb := bitlen d - 1
  if (d : ℤ) * 2 ^ la ≤ (a : ℤ) * 2 ^ lb then (la : ℤ) - lb else ((la : ℤ) - lb) - 1

/-- Round the positive rational `n / d` to the nearest binary64 value
(round to nearest, ties to even), returned in canonical form. -/
def toFqPos (n : ℤ) (d : ℕ) : Dy :=
  let e := flog2 n d
  let g := e - 52
  let M := if 0 ≤ g then rheDiv n ((d : ℤ) * 2 ^ g.toNat)
           else rheDiv (n * 2 ^ (-g).toNat) (d : ℤ)
  if M = 2 ^ 53 then ⟨2 ^ 52, g + 1⟩ else ⟨M, g⟩

/-- The binary64 value nearest to the rational `n / d` (`d > 0`): the exact
result of writing the decimal literal `n / d` in Python source. -/
def toFq (n : ℤ) (d : ℕ) : Dy :=
  if n = 0 then ⟨0, 0⟩
  else if 0 < n then toFqPos n d
  else
    let f := toFqPos (-n) d
    ⟨-f.m, f.e⟩

/-- Exact product of two dyadics. -/
def dyMul (a b : Dy) : Dy := ⟨a.m * b.m, a.e + b.e⟩

/-- Exact sum of two dyadics (aligned to the smaller exponent). -/
def dyAdd (a b : Dy) : Dy :=
  if a.e ≤ b.e then ⟨a.m + b.m * 2 ^ (b.e - a.e).toNat, a.e⟩
  else ⟨a.m * 2 ^ (a.e - b.e).toNat + b.m, b.e⟩

/-- Round a dyadic back to binary64 precision. -/
def toFdy (x : Dy) : Dy :=
  if 0 ≤ x.e then toFq (x.m * 2 ^ x.e.toNat) 1 else toFq x.m (2 ^ (-x.e).toNat)

/-- Binary64 addition: exact sum, then one rounding. -/
def fadd (a b : Dy) : Dy := toFdy (dyAdd a b)

/-- Binary64 multiplication: exact product, then one rounding. -/
def fmul (a b : Dy) : Dy := toFdy (dyMul a b)

/-- CPython `round(x, 2)` on a float `x`: the exact binary value of `x` is
rounded to 2 decimal places (ties to even) and the resulting decimal is
converted back to binary64. -/
def pyRound2 (x : Dy) : Dy :=
  let c : ℤ := if 0 ≤ x.e then 100 * x.m * 2 ^ x.e.toNat
               else rheDiv (100 * x.m) (2 ^ (-x.e).toNat)
  toFq c 100


/-! ## RBAC data model (`app/models/rbac.py`, `app/services/rbac_service.py`) -/

/-- `ScopeType` enumeration from `app/models/rbac.py`. -/
inductive ScopeType where
  | GLOBAL
  | CITY
  | RESTAURANT
  | SELF
deriving DecidableEq, Repr

/-- Role codes from `app/models/rbac.py` (string values of `RoleCode`). -/
def SUPER_ADMIN : String := "super_admin"

def CITY_ADMIN : String := "city_admin"

def DISPATCHER : String := "dispatcher"

def SUPPORT : String := "support"

/-- A row of the `roles` table (the fields `can_assign_role` consults). -/
structure Role where
  code : String
  scope_type : ScopeType
  is_active : Bool
deriving DecidableEq, Repr

/-- `UserScopes` dataclass from `app/services/rbac_service.py`; the Python
sets become lists. -/
structure UserScopes where
  user_id : ℤ
  is_super_admin : Bool
  city_ids : List ℤ
  restaurant_ids : List ℤ
  is_self_only : Bool
  role_codes : List String
deriving DecidableEq, Repr

/-- `UserScopes.has_role`: nonempty intersection of the user's role codes
with the requested codes. -/
def UserScopes.has_role (s : UserScopes) (codes : List String) : Bool :=
  s.role_codes.any (fun c => codes.contains c)

/-- `UserScopes.can_access_city`. -/
def UserScopes.can_access_city (s : UserScopes) (city_id : ℤ) : Bool :=
  s.is_super_admin || s.city_ids.contains city_id

/-- `UserScopes.can_access_restaurant`. -/
def UserScopes.can_access_restaurant (s : UserScopes) (restaurant_id : ℤ) : Bool :=
  s.is_super_admin || s.restaurant_ids.contains restaurant_id

/-- `UserScopes.can_access_user`. -/
def UserScopes.can_access_user (s : UserScopes) (target_user_id : ℤ) : Bool :=
  s.is_super_admin || (s.is_self_only && target_user_id == s.user_id)

/-- `UserScopes.has_city_scope` (`len(self.city_ids) > 0`). -/
def UserScopes.has_city_scope (s : UserScopes) : Bool :=
  s.is_super_admin || !s.city_ids.isEmpty

/-- `UserScopes.has_restaurant_scope`. -/
def UserScopes.has_restaurant_scope (s : UserScopes) : Bool :=
  s.is_super_admin || !s.restaurant_ids.isEmpty

/-! ## Order data model (`app/models/order.py`) -/

/-- The nine order states of `OrderStatus`. -/
inductive OrderStatus where
  | created
  | confirmed
  | preparing
  | ready
  | assigned
  | picked_up
  | delivered
  | cancelled
  | refunded
deriving DecidableEq, Repr

/-- `OrderType`. -/
inductive OrderType where
  | pickup
  | delivery
deriving DecidableEq, Repr

/-- The columns of the `orders` table consulted by the verified operations
(contact, monetary and timestamp columns that no claim reads are omitted).
`distance_km` is a nullable float column, hence `Option Dy`. -/
structure Order where
  id : ℤ
  city_id : ℤ
  customer_id : ℤ
  restaurant_id : ℤ
  rider_id : Option ℤ
  status : OrderStatus
  distance_km : Option Dy
deriving DecidableEq, Repr

/-- The columns of the `restaurants` table used by the restaurant-app
handlers. -/
structure Restaurant where
  id : ℤ
  owner_id : ℤ
  city_id : ℤ
deriving DecidableEq, Repr

/-- A row of the `drivers` table (`app/models/driver.py`): `id`, `user_id`
and the `is_active` flag (the unread `vehicle_type`/`hourly_rate` columns
are omitted).  The model defines **no** `is_available` column, although the
rider-app handlers read one. -/
structure Driver where
  id : ℤ
  user_id : ℤ
  is_active : Bool
deriving DecidableEq, Repr

/-- A row of the `deliveries` table (`app/models/driver.py`): its nullable
timestamps are `picked_at` and `delivered_at` (abstract ticks), and
`distance_km` is a **non-nullable** float (the server-defaulted
`assigned_at` column, which nothing here reads, is omitted).  The model
defines **no** `pickup_time`, `delivery_time` or `driver_earning` columns,
although the rider-app handlers read and write them. -/
structure Delivery where
  id : ℤ
  order_id : ℤ
  driver_id : ℤ
  picked_at : Option ℕ
  delivered_at : Option ℕ
  distance_km : Dy
deriving DecidableEq, Repr

/-- An HTTPException: status code and detail message. -/
structure HErr where
  status_code : ℕ
  detail : String
deriving DecidableEq, Repr

/-! ## Query narrowing (`apply_scope_filters`, `app/services/rbac_service.py`)

The SQLAlchemy query is modelled as a predicate on `Order` rows; the two
`hasattr(model, ...)` tests become the Boolean parameters `hasCityAttr` and
`hasRestaurantAttr`, and the `user_id_field` string becomes an optional
projection out of the row.  Each `query.where(...)` conjoins a condition. -/

def apply_scope_filters (hasCityAttr hasRestaurantAttr : Bool) (q : Order → Bool)
    (scopes : UserScopes) (user_id_field : Option (Order → ℤ)) : Order → Bool :=
  if scopes.is_super_admin then q
  else
    let q1 := if hasCityAttr && !scopes.city_ids.isEmpty then
        (fun o => q o && scopes.city_ids.contains o.city_id) else q
    let q2 := if hasRestaurantAttr && !scopes.restaurant_ids.isEmpty then
        (fun o => q1 o && scopes.restaurant_ids.contains o.restaurant_id) else q1
    match user_id_field with
    | some fld => if scopes.is_self_only then (fun o => q2 o && fld o == scopes.user_id) else q2
    | none => q2

/-! ## Composite order gate (`ScopeValidator.ensure_order_access`,
`app/core/rbac_deps.py`); `true` means access, `false` means the 403. -/

def ensure_order_access (scopes : UserScopes) (order : Order) : Bool :=
  if scopes.is_super_admin then true
  else if scopes.has_city_scope && scopes.can_access_city order.city_id then true
  else if scopes.has_restaurant_scope && scopes.can_access_restaurant order.restaurant_id then true
  else if scopes.is_self_only && order.customer_id == scopes.user_id then true
  else if scopes.is_self_only && order.rider_id == some scopes.user_id then true
  else false

/-! ## Role assignment (`can_assign_role`, `app/services/rbac_service.py`)

The `select(Role).where(Role.code == role_code)` lookup becomes a search of
the given `roles` table.  Python's `if target_city_id:` is truthiness:
`None` and `0` are both falsy. -/

def can_assign_role (assigner : UserScopes) (roles : List Role) (role_code : String)
    (target_city_id : Option ℤ) : Bool :=
  if assigner.is_super_admin then true
  else if assigner.has_role [CITY_ADMIN] then
    match roles.find? (fun r => r.code == role_code) with
    | none => false
    | some role =>
      if role.scope_type ≠ ScopeType.CITY then false
      else match target_city_id with
        | some c => if c ≠ 0 && assigner.can_access_city c then true else false
        | none => false
  else false

/-! ## Pricing (`Quote`, `app/services/pricing_service.py`)

Config defaults (`app/config.py`): SERVICE_FEE_RATE = 0.10,
DELIVERY_BASE_FEE = 2.00, DELIVERY_PER_KM_FEE = 0.60,
BIKE_PAY_PER_KM = 0.15 — as the binary64 values of those literals. -/

def SERVICE_FEE_RATE : Dy := toFq 1 10

def DELIVERY_BASE_FEE : Dy := toFq 2 1

def DELIVERY_PER_KM_FEE : Dy := toFq 6 10

def BIKE_PAY_PER_KM : Dy := toFq 15 100

/-- The four fields computed by `Quote.__init__`. -/
structure PyQuote where
  subtotal : Dy
  service_fee : Dy
  delivery_fee : Dy
  total : Dy
deriving DecidableEq, Repr

/-- `Quote(subtotal, distance_km, order_type)`: field-by-field transcription
of the constructor, in Python float arithmetic. -/
def mkQuote (subtotal : Dy) (distance_km : Option Dy) (order_type : OrderType) : PyQuote :=
  let sub := pyRound2 subtotal
  let sf := pyRound2 (fmul subtotal SERVICE_FEE_RATE)
  let df := match order_type, distance_km with
    | OrderType.delivery, some d => pyRound2 (fadd DELIVERY_BASE_FEE (fmul d DELIVERY_PER_KM_FEE))
    | _, _ => ⟨0, 0⟩
  { subtotal := sub, service_fee := sf, delivery_fee := df,
    total := pyRound2 (fadd (fadd sub sf) df) }

/-! ## Customer order endpoints (`app/api/apps/customer/orders.py`)

Each handler receives the authenticated customer's id and the row that
`session.get(Order, order_id)` returned (`none` when no such row). -/

/-- `GET /{order_id}` — `get_order_details`. -/
def get_order_details (uid : ℤ) (order? : Option Order) : Except HErr Order :=
  match order? with
  | none => .error ⟨404, "Order not found"⟩
  | some o =>
    if o.customer_id ≠ uid then .error ⟨404, "Order not found"⟩
    else .ok o

/-- `POST /{order_id}/cancel` — customer-app `cancel_order`; `.ok` carries
the mutated row. -/
def cancel_order_customer (uid : ℤ) (order? : Option Order) : Except HErr Order :=
  match order? with
  | none => .error ⟨404, "Order not found"⟩
  | some o =>
    if o.customer_id ≠ uid then .error ⟨404, "Order not found"⟩
    else if o.status ≠ OrderStatus.created ∧ o.status ≠ OrderStatus.confirmed then
      .error ⟨400, "Order cannot be cancelled at this stage"⟩
    else .ok { o with status := OrderStatus.cancelled }

/-! ## Restaurant order endpoints (`app/api/apps/restaurant/orders.py`) -/

/-- `POST /{order_id}/cancel` — restaurant-app `cancel_order`.  `restaurant?`
is the row `session.get(Restaurant, order.restaurant_id)` returned. -/
def cancel_order_restaurant (uid : ℤ) (order? : Option Order)
    (restaurant? : Option Restaurant) : Except HErr Order :=
  match order? with
  | none => .error ⟨404, "Order not found"⟩
  | some o =>
    match restaurant? with
    | none => .error ⟨403, "Not authorized"⟩
    | some r =>
      if r.owner_id ≠ uid then .error ⟨403, "Not authorized"⟩
      else if o.status = OrderStatus.delivered ∨ o.status = OrderStatus.cancelled then
        .error ⟨400, "Order cannot be cancelled"⟩
      else .ok { o with status := OrderStatus.cancelled }

/-! ## RBAC order endpoints (`app/api/v1/orders_rbac.py`) -/

/-- `POST /{order_id}/refund` — `refund_order`. -/
def refund_order (scopes : UserScopes) (order? : Option Order) : Except HErr Order :=
  if !scopes.is_super_admin && !scopes.has_role [SUPPORT] then
    .error ⟨403, "Only support staff can issue refunds"⟩
  else match order? with
  | none => .error ⟨404, "Order not found"⟩
  | some o =>
    if !scopes.is_super_admin && !scopes.city_ids.contains o.city_id then
      .error ⟨403, "Cannot refund orders in this city"⟩
    else if o.status = OrderStatus.refunded then
      .error ⟨400, "Order already refunded"⟩
    else if o.status ≠ OrderStatus.delivered ∧ o.status ≠ OrderStatus.cancelled then
      .error ⟨400, "Can only refund delivered or cancelled orders"⟩
    else .ok { o with status := OrderStatus.refunded }

/-- `PATCH /{order_id}/assign-rider` — `assign_rider_to_order`.
`rider_exists` models whether `session.get(User, rider_id)` found a row. -/
def assign_rider_to_order (scopes : UserScopes) (rider_id : ℤ) (order? : Option Order)
    (rider_exists : Bool) : Except HErr Order :=
  if !scopes.is_super_admin && !scopes.has_role [DISPATCHER] then
    .error ⟨403, "Only dispatchers can assign riders"⟩
  else match order? with
  | none => .error ⟨404, "Order not found"⟩
  | some o =>
    if !scopes.is_super_admin && !scopes.city_ids.contains o.city_id then
      .error ⟨403, "Cannot assign riders in this city"⟩
    else if !rider_exists then .error ⟨404, "Rider not found"⟩
    else .ok { o with rider_id := some rider_id,
                      status := if o.status = OrderStatus.ready then OrderStatus.assigned
                                else o.status }

/-! ## Rider delivery endpoints (`app/api/apps/rider/deliveries.py`)

`driver?` is the `Driver` row looked up by the caller's user id and
`delivery?`/`order?` are the fetched rows.  These handlers were written
against a schema this repository does not have: they read
`driver.is_available` and `delivery.pickup_time`/`delivery_time`, but the
mapped models (`app/models/driver.py`) define `is_active`, `picked_at` and
`delivered_at` instead.  Reading a nonexistent attribute of a mapped
instance raises `AttributeError`, which FastAPI surfaces as an HTTP 500,
so every call that passes the row-lookup guards dies at that read, before
any status or timestamp write; the model records this outcome as
`⟨500, "AttributeError: ..."⟩` carrying the underlying exception text. -/

/-- `POST /accept/{order_id}` — `accept_delivery`.  `if not driver or not
driver.is_available:` short-circuits to the 400 when no driver row exists;
otherwise the `driver.is_available` read raises `AttributeError`, so the
order fetch, the `Delivery` insert (which would anyway violate the
non-nullable `distance_km` column) and the `status = assigned` write are
unreachable. -/
def accept_delivery (driver? : Option Driver) (_order? : Option Order) :
    Except HErr (Delivery × Order) :=
  match driver? with
  | none => .error ⟨400, "Driver not available"⟩
  | some _ =>
    .error ⟨500, "AttributeError: 'Driver' object has no attribute 'is_available'"⟩

/-- `POST /{delivery_id}/pickup` — `mark_picked_up`.  After the driver and
delivery lookups succeed and ownership matches, `if delivery.pickup_time:`
raises `AttributeError` (the column is `picked_at`), so neither the
"Already marked as picked up" branch nor the pickup write is reachable. -/
def mark_picked_up (driver? : Option Driver) (delivery? : Option Delivery) :
    Except HErr (Delivery × Option Order) :=
  match driver? with
  | none => .error ⟨404, "Driver profile not found"⟩
  | some drv =>
    match delivery? with
    | none => .error ⟨404, "Delivery not found"⟩
    | some del =>
      if del.driver_id ≠ drv.id then .error ⟨404, "Delivery not found"⟩
      else .error ⟨500, "AttributeError: 'Delivery' object has no attribute 'pickup_time'"⟩

/-- `POST /{delivery_id}/deliver` — `mark_delivered`.  After the same
guards, `if not delivery.pickup_time:` raises `AttributeError`, so the
delivery write, the `status = delivered` write and the earning computation
are unreachable. -/
def mark_delivered (driver? : Option Driver) (delivery? : Option Delivery) :
    Except HErr (Delivery × Option Order) :=
  match driver? with
  | none => .error ⟨404, "Driver profile not found"⟩
  | some drv =>
    match delivery? with
    | none => .error ⟨404, "Delivery not found"⟩
    | some del =>
      if del.driver_id ≠ drv.id then .error ⟨404, "Delivery not found"⟩
      else .error ⟨500, "AttributeError: 'Delivery' object has no attribute 'pickup_time'"⟩

/-! ## Claims -/

/-- C7: With the default settings, `Quote(19.99, 4.2, "delivery")` yields
exactly subtotal 19.99, service_fee 2.00, delivery_fee 4.52, total 26.51 (as
binary64 values); and any quote whose order type is not delivery, or whose
distance is unknown, has delivery_fee 0. -/
theorem c7_quote_reference :
    mkQuote (toFq 1999 100) (some (toFq 21 5)) OrderType.delivery =
      { subtotal := toFq 1999 100, service_fee := toFq 2 1,
        delivery_fee := toFq 452 100, total := toFq 2651 100 }
    ∧ (∀ (s : Dy) (d : Option Dy), (mkQuote s d OrderType.pickup).delivery_fee = ⟨0, 0⟩)
    ∧ (∀ (s : Dy) (t : OrderType), (mkQuote s none t).delivery_fee = ⟨0, 0⟩) := by
  refine ⟨by decide, ?_, ?_⟩
  · intro s d; cases d <;> rfl
  · intro s t; cases t <;> rfl

/-- C8 counterexample: the pricing computation does not round half-up.  A
quote built on the literal `2.675` stores subtotal `2.67` (Python's `round`
applied to the binary64 value of `2.675`, which lies just below the tie),
not the `2.68` the claim requires. -/
theorem c8_half_up_counterexample :
    (mkQuote (toFq 2675 1000) none OrderType.pickup).subtotal = toFq 267 100
    ∧ toFq 267 100 ≠ toFq 268 100 := by
  exact ⟨by decide, by decide⟩

/-- C8 amended: monetary rounding in the pricing computation is CPython
`round` — round-half-to-even applied to the exact binary64 value.  `2.675`
(stored below the tie) rounds to `2.67`, and the exactly representable tie
`0.125` rounds to the even cent `0.12`, not away from zero. -/
theorem c8_rounding_half_even_amended :
    (mkQuote (toFq 2675 1000) none OrderType.pickup).subtotal = toFq 267 100
    ∧ (mkQuote (toFq 1 8) none OrderType.pickup).subtotal = toFq 12 100
    ∧ toFq 12 100 ≠ toFq 13 100 := by
  refine ⟨by decide, by decide, by decide⟩

/-- C9 counterexample: a customer requesting an order owned by a different
customer does **not** receive a distinguishable authorization error: the
handler answers the same `404 "Order not found"` it answers for a
nonexistent order, and no 403-kind error is produced. -/
theorem c9_auth_error_counterexample :
    get_order_details 1 (some ⟨5, 1, 2, 3, none, OrderStatus.created, none⟩) =
      Except.error ⟨404, "Order not found"⟩
    ∧ get_order_details 1 none = Except.error ⟨404, "Order not found"⟩
    ∧ ¬ ∃ e, get_order_details 1 (some ⟨5, 1, 2, 3, none, OrderStatus.created, none⟩) =
          Except.error e ∧ e.status_code = 403 := by
  refine ⟨rfl, rfl, ?_⟩
  rintro ⟨e, he, h403⟩
  have : e = ⟨404, "Order not found"⟩ := by
    have h := he
    simp only [get_order_details] at h
    exact (Except.error.injEq _ _).mp h.symm
  subst this
  simp at h403

/-- C9 amended: when a self-scoped customer requests the details of an order
whose `customer_id` differs from their id, the request fails — regardless of
the order's status — with the generic `404 "Order not found"` response, the
very same error returned for a nonexistent order (the handler hides the
record's existence instead of raising a distinguishable authorization
error). -/
theorem c9_not_found_amended :
    ∀ (uid : ℤ) (o : Order),
      (get_order_details uid (some o) = Except.error ⟨404, "Order not found"⟩
        ↔ (o.customer_id == uid) = false)
      ∧ get_order_details uid none = Except.error ⟨404, "Order not found"⟩ := by
  intro uid o
  refine ⟨?_, rfl⟩
  by_cases h : o.customer_id = uid <;> simp [get_order_details, h]

/-- C1: the three access primitives do deny everything for an actor with no
resolved scopes, but the query-narrowing `apply_scope_filters` does **not**
deny by default: with empty scopes every guard is skipped and the query is
returned unfiltered, so an all-rows query stays all-rows (witnessed by a
concrete row that passes the "filtered" predicate). -/
theorem c1_deny_by_default_fail_open :
    (∀ (uid c r t : ℤ),
      UserScopes.can_access_city ⟨uid, false, [], [], false, []⟩ c = false
      ∧ UserScopes.can_access_restaurant ⟨uid, false, [], [], false, []⟩ r = false
      ∧ UserScopes.can_access_user ⟨uid, false, [], [], false, []⟩ t = false)
    ∧ (∀ (uid : ℤ) (hc hr : Bool) (q : Order → Bool) (fld : Option (Order → ℤ)),
        apply_scope_filters hc hr q ⟨uid, false, [], [], false, []⟩ fld = q)
    ∧ apply_scope_filters true true (fun _ => true) ⟨7, false, [], [], false, []⟩
        (some (fun o => o.customer_id)) ⟨1, 1, 2, 3, none, OrderStatus.created, none⟩ = true := by
  refine ⟨?_, ?_, rfl⟩
  · intro uid c r t
    refine ⟨rfl, rfl, ?_⟩
    simp [UserScopes.can_access_user]
  · intro uid hc hr q fld
    cases fld <;> simp [apply_scope_filters]

/-- Helper: `ensure_order_access` as a flat Boolean formula. -/
theorem ensure_order_access_unfold (s : UserScopes) (o : Order) :
    ensure_order_access s o =
      (s.is_super_admin
        || s.has_city_scope && s.can_access_city o.city_id
        || s.has_restaurant_scope && s.can_access_restaurant o.restaurant_id
        || s.is_self_only && (o.customer_id == s.user_id)
        || s.is_self_only && (o.rider_id == some s.user_id)) := by
  unfold ensure_order_access
  cases h1 : s.is_super_admin
    <;> cases h2 : s.has_city_scope && s.can_access_city o.city_id
    <;> cases h3 : s.has_restaurant_scope && s.can_access_restaurant o.restaurant_id
    <;> cases h4 : s.is_self_only && (o.customer_id == s.user_id)
    <;> cases h5 : s.is_self_only && (o.rider_id == some s.user_id)
    <;> simp [h1, h2, h3, h4, h5]

/-- C2: the composite order gate grants access exactly when one of the four
ordered rules fires — global admin; city scope containing the order's city;
restaurant scope containing the order's restaurant; or self scope with the
order's `customer_id` or `rider_id` equal to the actor's own id.  In
particular a purely self-scoped actor is granted access exactly on an
ownership match, never through another actor's id. -/
theorem c2_ensure_order_access_iff :
    (∀ (s : UserScopes) (o : Order),
      ensure_order_access s o = true ↔
        (s.is_super_admin = true
          ∨ (s.has_city_scope = true ∧ s.can_access_city o.city_id = true)
          ∨ (s.has_restaurant_scope = true ∧ s.can_access_restaurant o.restaurant_id = true)
          ∨ (s.is_self_only = true ∧ (o.customer_id = s.user_id ∨ o.rider_id = some s.user_id))))
    ∧ (∀ (uid : ℤ) (rc : List String) (o : Order),
        ensure_order_access ⟨uid, false, [], [], true, rc⟩ o =
          (o.customer_id == uid || o.rider_id == some uid)) := by
  constructor
  · intro s o
    rw [ensure_order_access_unfold]
    simp [Bool.or_eq_true, Bool.and_eq_true, beq_iff_eq]
    tauto
  · intro uid rc o
    rw [ensure_order_access_unfold]
    simp [UserScopes.has_city_scope, UserScopes.has_restaurant_scope,
          UserScopes.can_access_city, UserScopes.can_access_restaurant]

/-- C4: the refund transition succeeds exactly when the caller is a super
admin, or a support-role holder whose city scope covers the order's city,
and the order's status is delivered or cancelled; every other combination —
in particular an order already refunded — produces an error (and, the
handler raising before any write, leaves the status unchanged). -/
theorem c4_refund_iff :
    ∀ (s : UserScopes) (o : Order),
      (refund_order s (some o) = Except.ok { o with status := OrderStatus.refunded }
        ↔ ((s.is_super_admin || s.has_role [SUPPORT] && s.can_access_city o.city_id)
            && (o.status == OrderStatus.delivered || o.status == OrderStatus.cancelled)) = true)
      ∧ ((∃ e, refund_order s (some o) = Except.error e)
        ↔ ((s.is_super_admin || s.has_role [SUPPORT] && s.can_access_city o.city_id)
            && (o.status == OrderStatus.delivered || o.status == OrderStatus.cancelled)) = false) := by
  intro s o
  cases h1 : s.is_super_admin
    <;> cases h2 : s.has_role [SUPPORT]
    <;> cases h3 : s.city_ids.contains o.city_id
    <;> cases h4 : o.status
    <;> simp_all [refund_order, UserScopes.can_access_city]

/-- C3 counterexample: the restaurant-app cancel endpoint cancels an order
whose status is `refunded` (its guard only blocks `delivered` and
`cancelled`), while the claim requires every cancellation from `refunded`
to fail and leave the status unchanged. -/
theorem c3_restaurant_cancel_refunded_counterexample :
    cancel_order_restaurant 9 (some ⟨1, 1, 2, 3, none, OrderStatus.refunded, none⟩)
        (some ⟨3, 9, 1⟩) =
      Except.ok ⟨1, 1, 2, 3, none, OrderStatus.cancelled, none⟩ := by
  rfl

/-- C3 amended: the customer-triggered cancel succeeds exactly when the
caller owns the order and its status is `created` or `confirmed`; the
restaurant-triggered cancel succeeds exactly when the caller owns the
restaurant and the status is not `delivered` and not `cancelled` — so
`picked_up` and `refunded` orders *can* still be cancelled by the
restaurant; every disallowed attempt is reported as an error (the handlers
raise before writing, leaving the status unchanged). -/
theorem c3_cancel_guards_amended :
    ∀ (uid : ℤ) (o : Order) (r : Restaurant),
      (cancel_order_customer uid (some o) = Except.ok { o with status := OrderStatus.cancelled }
        ↔ (o.customer_id == uid
            && (o.status == OrderStatus.created || o.status == OrderStatus.confirmed)) = true)
      ∧ ((∃ e, cancel_order_customer uid (some o) = Except.error e)
        ↔ (o.customer_id == uid
            && (o.status == OrderStatus.created || o.status == OrderStatus.confirmed)) = false)
      ∧ (cancel_order_restaurant uid (some o) (some r) = Except.ok { o with status := OrderStatus.cancelled }
        ↔ (r.owner_id == uid
            && !(o.status == OrderStatus.delivered || o.status == OrderStatus.cancelled)) = true)
      ∧ ((∃ e, cancel_order_restaurant uid (some o) (some r) = Except.error e)
        ↔ (r.owner_id == uid
            && !(o.status == OrderStatus.delivered || o.status == OrderStatus.cancelled)) = false) := by
  intro uid o r
  by_cases hc : o.customer_id = uid <;> by_cases hr : r.owner_id = uid
    <;> cases h4 : o.status
    <;> simp_all [cancel_order_customer, cancel_order_restaurant]

/-- C5: the claim (and the spec transition table) is right and the code is
wrong: the courier pickup/deliver handlers were written against a schema
this repository does not have.  Every call errors — the lookup guards give
404s, and the assigned courier's own call reaches `delivery.pickup_time`,
which does not exist on the `Delivery` model (its column is `picked_at`),
and dies with `AttributeError` (HTTP 500).  Neither transition, timestamp
write, status write nor earning computation ever happens. -/
theorem c5_pickup_deliver_attribute_error :
    (∀ (driver? : Option Driver) (delivery? : Option Delivery),
        ∃ e, mark_picked_up driver? delivery? = Except.error e)
    ∧ (∀ (driver? : Option Driver) (delivery? : Option Delivery),
        ∃ e, mark_delivered driver? delivery? = Except.error e)
    ∧ mark_picked_up (some ⟨4, 10, true⟩) (some ⟨1, 2, 4, none, none, toFq 3 1⟩) =
        Except.error ⟨500, "AttributeError: 'Delivery' object has no attribute 'pickup_time'"⟩
    ∧ mark_delivered (some ⟨4, 10, true⟩) (some ⟨1, 2, 4, some 3, none, toFq 3 1⟩) =
        Except.error ⟨500, "AttributeError: 'Delivery' object has no attribute 'pickup_time'"⟩ := by
  refine ⟨?_, ?_, rfl, rfl⟩
  · intro driver? delivery?
    cases driver? with
    | none => exact ⟨_, rfl⟩
    | some drv =>
      cases delivery? with
      | none => exact ⟨_, rfl⟩
      | some del =>
        by_cases h : del.driver_id = drv.id <;> simp [mark_picked_up, h]
  · intro driver? delivery?
    cases driver? with
    | none => exact ⟨_, rfl⟩
    | some drv =>
      cases delivery? with
      | none => exact ⟨_, rfl⟩
      | some del =>
        by_cases h : del.driver_id = drv.id <;> simp [mark_delivered, h]

/-- C6: role assignment is allowed for a super admin unconditionally; for a
city-admin assigner exactly when the assigned role's declared scope type is
CITY and the proposed target city id is set and lies in the assigner's own
city ids (under the domain fact that 0 is not a city id, matching Python's
truthiness test on `target_city_id`); and denied for every other assigner. -/
theorem c6_can_assign_role_iff :
    ∀ (a : UserScopes) (roles : List Role) (code : String) (tc : Option ℤ) (role : Role),
      roles.find? (fun r => r.code == code) = some role →
      a.city_ids.contains 0 = false →
      (can_assign_role a roles code tc = true ↔
        (a.is_super_admin = true
          ∨ (a.has_role [CITY_ADMIN] = true ∧ role.scope_type = ScopeType.CITY
              ∧ ∃ c, tc = some c ∧ a.city_ids.contains c = true)))
      ∧ (a.is_super_admin = false → a.has_role [CITY_ADMIN] = false →
          can_assign_role a roles code tc = false) := by
  intro a roles code tc role hfind h0
  constructor
  · cases h1 : a.is_super_admin
    · cases h2 : a.has_role [CITY_ADMIN]
      · simp [can_assign_role, h1, h2]
      · cases tc with
        | none => simp [can_assign_role, h1, h2, hfind]
        | some c =>
          by_cases h3 : role.scope_type = ScopeType.CITY
          · by_cases hc0 : c = 0
            · subst hc0
              simp_all [can_assign_role, UserScopes.can_access_city]
            · simp [can_assign_role, h1, h2, hfind, h3, hc0, UserScopes.can_access_city]
          · simp [can_assign_role, h1, h2, hfind, h3]
    · simp [can_assign_role, h1]
  · intro h1 h2
    simp [can_assign_role, h1, h2]

/-- C6 witness: a city admin scoped to city 1 assigning the CITY-scoped
dispatcher role for city 1 — hypotheses hold and the characterization
applies. -/
theorem c6_can_assign_role_iff_witness :
    ([⟨"dispatcher", ScopeType.CITY, true⟩] : List Role).find?
        (fun r => r.code == "dispatcher") = some ⟨"dispatcher", ScopeType.CITY, true⟩
    ∧ (UserScopes.mk 5 false [1] [] false [CITY_ADMIN]).city_ids.contains 0 = false
    ∧ ((can_assign_role ⟨5, false, [1], [], false, [CITY_ADMIN]⟩
            [⟨"dispatcher", ScopeType.CITY, true⟩] "dispatcher" (some 1) = true ↔
          ((⟨5, false, [1], [], false, [CITY_ADMIN]⟩ : UserScopes).is_super_admin = true
            ∨ ((⟨5, false, [1], [], false, [CITY_ADMIN]⟩ : UserScopes).has_role [CITY_ADMIN] = true
                ∧ (⟨"dispatcher", ScopeType.CITY, true⟩ : Role).scope_type = ScopeType.CITY
                ∧ ∃ c, (some 1 : Option ℤ) = some c
                    ∧ (⟨5, false, [1], [], false, [CITY_ADMIN]⟩ : UserScopes).city_ids.contains c = true)))
        ∧ ((⟨5, false, [1], [], false, [CITY_ADMIN]⟩ : UserScopes).is_super_admin = false →
            (⟨5, false, [1], [], false, [CITY_ADMIN]⟩ : UserScopes).has_role [CITY_ADMIN] = false →
            can_assign_role ⟨5, false, [1], [], false, [CITY_ADMIN]⟩
              [⟨"dispatcher", ScopeType.CITY, true⟩] "dispatcher" (some 1) = false)) :=
  ⟨by decide, by decide,
    c6_can_assign_role_iff ⟨5, false, [1], [], false, [CITY_ADMIN]⟩
      [⟨"dispatcher", ScopeType.CITY, true⟩] "dispatcher" (some 1)
      ⟨"dispatcher", ScopeType.CITY, true⟩ (by decide) (by decide)⟩

/-- C10 counterexample: courier self-acceptance never reaches the claimed
effect.  With a ready order and an existing (active) driver row, the
endpoint dies reading `driver.is_available` — a column the `Driver` model
does not have — with `AttributeError` (HTTP 500): no `Delivery` row is
created and the order status is never set to `assigned`. -/
theorem c10_accept_delivery_counterexample :
    accept_delivery (some ⟨1, 10, true⟩) (some ⟨2, 1, 7, 3, none, OrderStatus.ready, none⟩) =
      Except.error ⟨500, "AttributeError: 'Driver' object has no attribute 'is_available'"⟩ := by
  rfl

/-- C10 amended: courier self-acceptance never succeeds at all — the
endpoint returns 400 when no driver row exists and raises `AttributeError`
(HTTP 500) otherwise, before creating any `Delivery` row or touching the
order; so the rider app never writes `Order.rider_id` (a fortiori it stays
null), the dispatcher assign-rider endpoint is the only operation that
populates it, and the self-scope rider branch of the order gate can never
match a courier through self-acceptance. -/
theorem c10_rider_id_only_via_dispatcher :
    (∀ (driver? : Option Driver) (order? : Option Order),
        ∃ e, accept_delivery driver? order? = Except.error e)
    ∧ (∀ (o : Order) (uid : ℤ) (rc : List String),
        ensure_order_access ⟨uid, false, [], [], true, rc⟩ { o with rider_id := none }
          = (o.customer_id == uid))
    ∧ (∀ (s : UserScopes) (rid : ℤ) (o : Order),
        assign_rider_to_order s rid (some o) true =
            Except.ok { o with rider_id := some rid, status := (if o.status = OrderStatus.ready then OrderStatus.assigned else o.status) }
          ↔ ((s.is_super_admin || s.has_role [DISPATCHER])
              && (s.is_super_admin || s.city_ids.contains o.city_id)) = true) := by
  refine ⟨?_, ?_, ?_⟩
  · intro driver? order?
    cases driver? with
    | none => exact ⟨_, rfl⟩
    | some drv => exact ⟨_, rfl⟩
  · intro o uid rc
    rw [ensure_order_access_unfold]
    simp [UserScopes.has_city_scope, UserScopes.has_restaurant_scope,
          UserScopes.can_access_city, UserScopes.can_access_restaurant]
  · intro s rid o
    cases h1 : s.is_super_admin
      <;> cases h2 : s.has_role [DISPATCHER]
      <;> cases h3 : s.city_ids.contains o.city_id
      <;> simp_all [assign_rider_to_order]
